import Mathlib

/-!
Shallow embedding of the monadic-container library (Option, Either, Try, IO,
Writer, List, Monoid, ADT matcher) from the TypeScript sources, together with
theorems settling the specification claims about it.

Conventions of the embedding:
* TypeScript classes with variant subclasses become inductive types whose
  constructors keep the subclass names.
* A function argument that may `throw` is modelled as returning
  `Except E r`: `Except.error e` is a raised error `e`, `Except.ok r` a
  normal return. Combinators that have no `try/catch` propagate the
  `Except.error`; combinators of `Try`, whose bodies are wrapped in
  `try/catch`, convert it into a `Failure`.
* Side effects (the IO container) are modelled by explicit state passing:
  an effect `() => A` over a mutable world of type `S` becomes
  `S → A × S`.
* JavaScript object property lookup that may yield `undefined` (the ADT
  handler map) is modelled with `JSProp`; calling an `undefined` property
  raises a TypeError, modelled as `MatchOutcome.thrown`.
-/

namespace ADTs

/-- A tagged value of a sum type: the `_type` discriminant together with the
variant payload (`{_type: K} & Product<payload>` from src/ADTs.ts). -/
structure Tagged (P : Type) where
  tag : String
  payload : P

/-- A JavaScript object property that is either present or `undefined`:
models the lookup `handlers[value._type]` in src/ADTs.ts `match`. -/
inductive JSProp (A : Type) where
  | undefinedProp
  | defined (a : A)

/-- Outcome of running the matcher: either a returned value, or the
TypeError raised when the looked-up handler is `undefined` and is called. -/
inductive MatchOutcome (D : Type) where
  | thrown
  | value (d : D)

/-- Embedding of `match` from src/ADTs.ts: look up `handlers[value._type]`
and call it on the value; calling a missing (undefined) handler raises. -/
def adtMatch {P D : Type} (value : Tagged P)
    (handlers : String → JSProp (Tagged P → D)) : MatchOutcome D :=
  match handlers value.tag with
  | .undefinedProp => .thrown
  | .defined h => .value (h value)

/-- Embedding of the per-variant constructor produced by `makeConstructors`
in src/ADTs.ts: `(args) => ({ _type: key, ...args })`. -/
def makeConstructor {P : Type} (key : String) (args : P) : Tagged P :=
  ⟨key, args⟩

end ADTs

namespace TS

/-- The Monoid capability from src/Monoid.ts: identity element `pure` and
binary operation `combine`. -/
structure Monoid (A : Type) where
  combine : A → A → A
  pure : A

/-- StringConcatMonoid from src/Monoid.ts. -/
def StringConcatMonoid : Monoid String :=
  { combine := fun x y => x ++ y, pure := "" }

/-- The three monoid laws (identity and associativity); the spec calls a
monoid satisfying them a lawful monoid. -/
def Monoid.Lawful {A : Type} (M : Monoid A) : Prop :=
  (∀ x, M.combine M.pure x = x) ∧ (∀ x, M.combine x M.pure = x) ∧
    (∀ x y z, M.combine (M.combine x y) z = M.combine x (M.combine y z))

/-- Option from src/Option.ts: variants `Some` (class Some) and `None`
(class None, a canonical singleton). -/
inductive Option (A : Type) where
  | Some (value : A)
  | None

/-- Option.pure from src/Option.ts: wraps a value in `Some`. -/
def Option.pure {A : Type} (value : A) : Option A :=
  .Some value

/-- bind from src/Option.ts: `Some.bind` applies the function to the value,
`None.bind` returns the canonical `None` without invoking it. -/
def Option.bind {A B : Type} : Option A → (A → Option B) → Option B
  | .Some value, func => func value
  | .None, _ => .None

/-- map from src/Option.ts, defined on the base class as
`this.bind((value) => Option.pure(func(value)))`. -/
def Option.map {A B : Type} (o : Option A) (func : A → B) : Option B :=
  o.bind fun value => Option.pure (func value)

/-- getOrElse from src/Option.ts via `match`. -/
def Option.getOrElse {A : Type} : Option A → A → A
  | .Some value, _ => value
  | .None, defaultValue => defaultValue

/-- Evaluation of bind when the function argument may raise: `Some.bind`
calls `func(this.value)` with no `try/catch`, so a raise escapes;
`None.bind` returns `None` without calling the function. -/
def Option.bindThrows {A B E : Type} :
    Option A → (A → Except E (Option B)) → Except E (Option B)
  | .Some value, func => func value
  | .None, _ => .ok .None

/-- Evaluation of map when the function argument may raise: map is
`bind((value) => Option.pure(func(value)))`, so the lambda raises exactly
when `func` raises, and nothing catches it. -/
def Option.mapThrows {A B E : Type} (o : Option A) (func : A → Except E B) :
    Except E (Option B) :=
  o.bindThrows fun value =>
    match func value with
    | .error e => .error e
    | .ok b => .ok (Option.pure b)

/-- Either from src/Either.ts: variants `Left` (failure) and `Right`
(success). -/
inductive Either (L R : Type) where
  | Left (value : L)
  | Right (value : R)

/-- Either.asRight from src/Either.ts. -/
def Either.asRight {L R : Type} (value : R) : Either L R :=
  .Right value

/-- Either.asLeft from src/Either.ts. -/
def Either.asLeft {L R : Type} (value : L) : Either L R :=
  .Left value

/-- bind from src/Either.ts: `Right.bind` applies the function;
`Left.bind` returns `new Left(this.value)`, a Left carrying the same value,
without invoking the function. -/
def Either.bind {L R T : Type} : Either L R → (R → Either L T) → Either L T
  | .Right value, func => func value
  | .Left value, _ => .Left value

/-- map from src/Either.ts, defined on the base class as
`this.bind((value) => Either.asRight(func(value)))`. -/
def Either.map {L R T : Type} (e : Either L R) (func : R → T) : Either L T :=
  e.bind fun value => Either.asRight (func value)

/-- getOrElse from src/Either.ts. -/
def Either.getOrElse {L R : Type} : Either L R → R → R
  | .Right value, _ => value
  | .Left _, defaultValue => defaultValue

/-- ensure from src/Either.ts: on Right, keep it if the predicate holds,
else downgrade to `Left(left)`; on Left, return this Left unchanged. -/
def Either.ensure {L R : Type} : Either L R → L → (R → Bool) → Either L R
  | .Right value, left, predicate =>
      if predicate value then .Right value else .Left left
  | .Left value, _, _ => .Left value

/-- fromOption from src/Either.ts: Some becomes Right, None becomes
`Left(left)`. -/
def Either.fromOption {L R : Type} (opt : Option R) (left : L) : Either L R :=
  match opt with
  | .Some value => Either.asRight value
  | .None => Either.asLeft left

/-- Evaluation of bind when the function argument may raise: `Right.bind`
calls `func(this.value)` with no `try/catch`, so a raise escapes;
`Left.bind` returns a Left with the same value without calling it. -/
def Either.bindThrows {L R T E : Type} :
    Either L R → (R → Except E (Either L T)) → Except E (Either L T)
  | .Right value, func => func value
  | .Left value, _ => .ok (.Left value)

/-- Evaluation of map when the function argument may raise: map is
`bind((value) => Either.asRight(func(value)))`; a raise in `func` escapes
uncaught. -/
def Either.mapThrows {L R T E : Type} (e : Either L R)
    (func : R → Except E T) : Except E (Either L T) :=
  e.bindThrows fun value =>
    match func value with
    | .error err => .error err
    | .ok t => .ok (Either.asRight t)

/-- Try from src/Try.ts: variants `Success` and `Failure` (captured error of
type E). -/
inductive Try (A E : Type) where
  | Success (value : A)
  | Failure (error : E)

/-- bind from src/Try.ts: `Success.bind` runs `func(this.value)` inside
`try/catch`, turning a raised `err` into `new Failure(err)`;
`Failure.bind` returns a new Failure carrying the same error without
invoking the function. -/
def Try.bind {A B E : Type} : Try A E → (A → Except E (Try B E)) → Try B E
  | .Success value, func =>
      match func value with
      | .ok t => t
      | .error err => .Failure err
  | .Failure error, _ => .Failure error

/-- map from src/Try.ts: `Success.map` runs `func` inside `try/catch`,
wrapping a normal result in `new Success(...)` and a raised error in
`new Failure(err)`; `Failure.map` returns a new Failure with the same
error. -/
def Try.map {A B E : Type} : Try A E → (A → Except E B) → Try B E
  | .Success value, func =>
      match func value with
      | .ok b => .Success b
      | .error err => .Failure err
  | .Failure error, _ => .Failure error

/-- getOrElse from src/Try.ts. -/
def Try.getOrElse {A E : Type} : Try A E → A → A
  | .Success value, _ => value
  | .Failure _, defaultValue => defaultValue

/-- recover from src/Try.ts: on Failure, run `func(this.error)` inside
`try/catch`, wrapping a normal result in Success and a raised error in a
new Failure; on Success, return this unchanged. -/
def Try.recover {A E : Type} : Try A E → (E → Except E A) → Try A E
  | .Success value, _ => .Success value
  | .Failure error, func =>
      match func error with
      | .ok a => .Success a
      | .error err => .Failure err

/-- recoverWith from src/Try.ts: like recover but `func` returns a Try
directly; still guarded by `try/catch`. -/
def Try.recoverWith {A E : Type} :
    Try A E → (E → Except E (Try A E)) → Try A E
  | .Success value, _ => .Success value
  | .Failure error, func =>
      match func error with
      | .ok t => t
      | .error err => .Failure err

/-- The IO container from src/IO.ts over an explicit world state S: the
stored `effect: () => A` becomes a state transformer `S → A × S`. -/
structure IOM (S A : Type) where
  effect : S → A × S

/-- runUnsafe from src/IO.ts: executes the stored effect. -/
def IOM.runUnsafe {S A : Type} (m : IOM S A) (s : S) : A × S :=
  m.effect s

/-- IO.of from src/IO.ts: wraps a pure value, `new IO(() => value)`; the
world state is untouched when it runs. -/
def IOM.of {S A : Type} (value : A) : IOM S A :=
  ⟨fun s => (value, s)⟩

/-- IO.from from src/IO.ts: wraps an arbitrary (effectful) thunk. -/
def IOM.fromThunk {S A : Type} (thunk : S → A × S) : IOM S A :=
  ⟨thunk⟩

/-- bind from src/IO.ts:
`new IO(() => func(this.effect()).runUnsafe())` — a deferred computation
that, when run, runs this effect, then runs the continuation body (whose
own side effects are modelled by its `S` argument), then runs the IO it
returned. -/
def IOM.bind {S A B : Type} (m : IOM S A) (func : A → S → IOM S B × S) :
    IOM S B :=
  ⟨fun s =>
    let r := m.effect s
    let fr := func r.1 r.2
    fr.1.effect fr.2⟩

/-- map from src/IO.ts: `new IO(() => func(this.effect()))`. -/
def IOM.map {S A B : Type} (m : IOM S A) (func : A → S → B × S) : IOM S B :=
  ⟨fun s =>
    let r := m.effect s
    func r.1 r.2⟩

/-- Lift of a pure continuation `A → IOM S B` to the effectful continuation
shape expected by `IOM.bind` (it touches no state while producing its IO),
used to state the monad laws for pure functions. -/
def IOM.liftPure {S A B : Type} (func : A → IOM S B) : A → S → IOM S B × S :=
  fun a s => (func a, s)

/-- Writer from src/Writer.ts: a value, an accumulated log and the stored
monoid used to fold logs. -/
structure Writer (W A : Type) where
  value : A
  log : W
  monoid : Monoid W

/-- Writer.of from src/Writer.ts: log initialized to the monoid identity. -/
def Writer.of {W A : Type} (value : A) (monoid : Monoid W) : Writer W A :=
  ⟨value, monoid.pure, monoid⟩

/-- bind from src/Writer.ts: run the continuation on the value and combine
the logs as `this.monoid.combine(this.log, result.log)` — old log first. -/
def Writer.bind {W A B : Type} (w : Writer W A) (func : A → Writer W B) :
    Writer W B :=
  let result := func w.value
  ⟨result.value, w.monoid.combine w.log result.log, w.monoid⟩

/-- map from src/Writer.ts: transforms the value, preserves the log. -/
def Writer.map {W A B : Type} (w : Writer W A) (func : A → B) : Writer W B :=
  ⟨func w.value, w.log, w.monoid⟩

/-- tell from src/Writer.ts: appends one log entry via
`this.monoid.combine(this.log, log)` — old log first. -/
def Writer.tell {W A : Type} (w : Writer W A) (log : W) : Writer W A :=
  ⟨w.value, w.monoid.combine w.log log, w.monoid⟩

/-- run from src/Writer.ts: extracts value and log. -/
def Writer.run {W A : Type} (w : Writer W A) : A × W :=
  (w.value, w.log)

/-- A reference to a JS Monoid object: the operations plus an object
identity, so that the reference comparison `===` used by the asserting
Writer.bind can be modelled as equality of identities. -/
structure MonoidRef (W : Type) where
  id : Nat
  ops : Monoid W

/-- The error signalled by a failed `assert(..., "Must have the same
monoid")` in the documented Writer.bind. -/
inductive AssertError where
  | monoidMismatch

/-- The documented Writer (the variant of src/Writer.ts whose bind receives
a `make` helper and asserts monoid identity): value, log and the stored
monoid reference. -/
structure WriterA (W A : Type) where
  value : A
  log : W
  monoid : MonoidRef W

/-- WriterA.of: log initialized to the monoid identity. -/
def WriterA.of {W A : Type} (value : A) (monoid : MonoidRef W) : WriterA W A :=
  ⟨value, monoid.ops.pure, monoid⟩

/-- The `make` helper handed to the continuation of the documented
Writer.bind: `(value, log) => new Writer(value, log, this.monoid)`. -/
def WriterA.make {W A B : Type} (w : WriterA W A) : B → W → WriterA W B :=
  fun value log => ⟨value, log, w.monoid⟩

/-- The Writer returned by the continuation of the documented Writer.bind:
`func(this.value, make)`. -/
def WriterA.bindResult {W A B : Type} (w : WriterA W A)
    (func : A → (B → W → WriterA W B) → WriterA W B) : WriterA W B :=
  func w.value (WriterA.make w)

/-- bind of the documented Writer: run the continuation with the current
value and `make`, then `assert(result.monoid === this.monoid)` — a monoid
reference mismatch fails loudly instead of returning a Writer — then
combine logs old-first with the receiver's monoid. -/
def WriterA.bind {W A B : Type} (w : WriterA W A)
    (func : A → (B → W → WriterA W B) → WriterA W B) :
    Except AssertError (WriterA W B) :=
  let result := WriterA.bindResult w func
  if result.monoid.id = w.monoid.id then
    .ok ⟨result.value, w.monoid.ops.combine w.log result.log, w.monoid⟩
  else
    .error .monoidMismatch

/-- List from src/List.ts: variants `Pair` (head plus owned tail) and
`Empty` (canonical terminal). -/
inductive List (T : Type) where
  | Pair (head : T) (tail : List T)
  | Empty

/-- The local `concat` helper defined inside Pair.bind in src/List.ts,
written with `match`: an empty first list yields the second, otherwise
cons the head onto the concatenation of the tail. -/
def List.concat {D : Type} : List D → List D → List D
  | .Empty, l2 => l2
  | .Pair head tail, l2 => .Pair head (List.concat tail l2)

/-- bind from src/List.ts: `Pair.bind` concatenates `func(head)` with the
recursively bound tail; `Empty.bind` returns the canonical Empty. -/
def List.bind {T D : Type} : List T → (T → List D) → List D
  | .Pair head tail, func => List.concat (func head) (List.bind tail func)
  | .Empty, _ => .Empty

/-- map from src/List.ts. -/
def List.map {T D : Type} : List T → (T → D) → List D
  | .Pair head tail, func => .Pair (func head) (List.map tail func)
  | .Empty, _ => .Empty

/-- filter from src/List.ts. -/
def List.filter {T : Type} : List T → (T → Bool) → List T
  | .Pair head tail, func =>
      if func head then .Pair head (List.filter tail func)
      else List.filter tail func
  | .Empty, _ => .Empty

/-- foldLeft from src/List.ts: threads the accumulator head-to-tail. -/
def List.foldLeft {T D : Type} : List T → D → (D → T → D) → D
  | .Pair head tail, seed, func => List.foldLeft tail (func seed head) func
  | .Empty, seed, _ => seed

/-- foldRight from src/List.ts: `Pair` computes
`func(this.tail.foldRight(seed)(func), this.head)` — the folded tail is the
FIRST argument and the head the SECOND; `Empty` returns the seed. -/
def List.foldRight {T D : Type} : List T → D → (D → T → D) → D
  | .Pair head tail, seed, func => func (List.foldRight tail seed func) head
  | .Empty, seed, _ => seed

/-- isEmpty as written in src/List.ts: `Pair.isEmpty` returns false, and
`Empty.isEmpty` ALSO returns false (lines 78-80 of the source). -/
def List.isEmpty {T : Type} : List T → Bool
  | .Pair _ _ => false
  | .Empty => false

/-- The unit of the list monad, `Pair(a, Empty)`. Modelled from the spec:
the source defines `pure` for the other containers (Option.pure,
Either.asRight, Try's Success, IO.of, Writer.of) but gives List no explicit
pure; the monad contract of section 4.1 requires one, and the singleton
list is the unit matching List.bind. -/
def List.pure {T : Type} (value : T) : List T :=
  .Pair value .Empty

/-- Flattening of a list of lists in order: states the spec's
`f(x1) ++ f(x2) ++ ... ++ f(xn)` with the source's concat. -/
def List.flatten {D : Type} : List (List D) → List D
  | .Pair head tail => List.concat head (List.flatten tail)
  | .Empty => .Empty

/-- The concrete list [1,2,3] from the spec's List.bind example. -/
def exampleList123 : List Nat :=
  .Pair 1 (.Pair 2 (.Pair 3 .Empty))

/-- The concrete expansion f(x) = [x, x*10] from the spec's List.bind
example. -/
def expandTimes10 : Nat → List Nat :=
  fun x => .Pair x (.Pair (x * 10) .Empty)

/-- The log message `Fac(n)=v` used by the Writer factorial example. -/
def facMsg (n v : Nat) : String :=
  "Fac(" ++ toString n ++ ")=" ++ toString v

/-- Factorial computed through successive Writer binds with the string
monoid, mirroring the factorial example: the base case tells `Fac(1)=1`,
and step n binds a continuation producing a writer whose log entry is
`Fac(n)=(prev*n)`. -/
def factorialW : Nat → Writer String Nat
  | 0 => Writer.of 1 StringConcatMonoid
  | 1 => (Writer.of 1 StringConcatMonoid).tell (facMsg 1 1)
  | n + 2 =>
      (factorialW (n + 1)).bind fun prev =>
        (Writer.of (prev * (n + 2)) StringConcatMonoid).tell
          (facMsg (n + 2) (prev * (n + 2)))

/-- The side-effect-counter program of the IO test:
`IO.of(43).bind((value) => { a += 1; return IO.of(value) })`, with the
counter `a` as the world state. -/
def counterProgram : IOM Nat Nat :=
  (IOM.of 43).bind fun v s => (IOM.of v, s + 1)

/-- A concrete monoid on Nat (addition with identity 0), used as a concrete
lawful monoid input. -/
def NatAddMonoid : Monoid Nat :=
  { combine := fun x y => x + y, pure := 0 }

/-- A concrete Writer continuation over `NatAddMonoid`. -/
def wStep : Nat → Writer Nat Nat :=
  fun x => (Writer.of (x + 1) NatAddMonoid).tell 1

/-- A second concrete Writer continuation over `NatAddMonoid`. -/
def wStep2 : Nat → Writer Nat Nat :=
  fun x => (Writer.of (x * 2) NatAddMonoid).tell 2

/-- A concrete Writer value over `NatAddMonoid`. -/
def wSample : Writer Nat Nat :=
  (Writer.of 3 NatAddMonoid).tell 5

/-- Two monoid references with the same operations but different object
identities, modelling two distinct JS monoid objects. -/
def monoidRefZero : MonoidRef String :=
  ⟨0, StringConcatMonoid⟩

/-- A second, distinct monoid reference. -/
def monoidRefOne : MonoidRef String :=
  ⟨1, StringConcatMonoid⟩

/-- A concrete WriterA over the first monoid reference. -/
def waSample : WriterA String Nat :=
  WriterA.of 5 monoidRefZero

/-- A continuation that ignores `make` and returns a Writer carrying the
OTHER monoid reference: a cross-monoid programming error. -/
def mismatchCont : Nat → (Nat → String → WriterA String Nat) →
    WriterA String Nat :=
  fun v _make => ⟨v + 1, "step", monoidRefOne⟩

/-- A continuation that builds its result with the provided `make` helper,
hence with the receiver's monoid reference. -/
def makeCont : Nat → (Nat → String → WriterA String Nat) →
    WriterA String Nat :=
  fun v make => make (v + 1) "step"

end TS

namespace ADTs

/-- The declared discriminants of a concrete two-variant shape ADT. -/
def declaredShapes : List String :=
  ["circle", "square"]

/-- A concrete tagged value of the square variant. -/
def squareValue : Tagged Nat :=
  ⟨"square", 7⟩

/-- A concrete handler for the circle variant. -/
def circleHandler : Tagged Nat → Nat :=
  fun v => v.payload * 2

/-- A concrete handler for the square variant. -/
def squareHandler : Tagged Nat → Nat :=
  fun v => v.payload + 1

/-- A handler map missing the declared square variant: looking up "square"
yields undefined. -/
def partialHandlers : String → JSProp (Tagged Nat → Nat) :=
  fun tag => if tag = "circle" then .defined circleHandler else .undefinedProp

/-- A handler map covering every declared shape variant. -/
def fullHandlers : String → JSProp (Tagged Nat → Nat) :=
  fun tag =>
    if tag = "circle" then .defined circleHandler
    else if tag = "square" then .defined squareHandler
    else .undefinedProp

end ADTs

namespace TS

theorem List.concat_empty {D : Type} (l : List D) : l.concat .Empty = l := by
  induction l with
  | Pair head tail ih => simp [List.concat, ih]
  | Empty => rfl

theorem List.concat_assoc {D : Type} (l1 l2 l3 : List D) :
    (l1.concat l2).concat l3 = l1.concat (l2.concat l3) := by
  induction l1 with
  | Pair head tail ih => simp [List.concat, ih]
  | Empty => rfl

theorem List.bind_concat {T D : Type} (l1 l2 : List T) (f : T → List D) :
    (l1.concat l2).bind f = (l1.bind f).concat (l2.bind f) := by
  induction l1 with
  | Pair head tail ih => simp [List.concat, List.bind, ih, List.concat_assoc]
  | Empty => rfl

theorem List.bind_pure_right {T : Type} (l : List T) :
    l.bind List.pure = l := by
  induction l with
  | Pair head tail ih => simp [List.bind, List.pure, List.concat, ih]
  | Empty => rfl

theorem List.bind_assoc {T D C : Type} (l : List T) (f : T → List D)
    (g : D → List C) :
    (l.bind f).bind g = l.bind fun x => (f x).bind g := by
  induction l with
  | Pair head tail ih => simp [List.bind, List.bind_concat, ih]
  | Empty => rfl

theorem List.bind_eq_flatten_map {T D : Type} (l : List T) (f : T → List D) :
    l.bind f = (l.map f).flatten := by
  induction l with
  | Pair head tail ih => simp [List.bind, List.map, List.flatten, ih]
  | Empty => rfl

theorem Writer.eq_of_parts {W A : Type} {w1 w2 : Writer W A}
    (hv : w1.value = w2.value) (hl : w1.log = w2.log)
    (hm : w1.monoid = w2.monoid) : w1 = w2 := by
  cases w1
  cases w2
  simp_all

theorem NatAddMonoid.lawful : NatAddMonoid.Lawful :=
  ⟨fun x => Nat.zero_add x, fun x => Nat.add_zero x,
    fun x y z => Nat.add_assoc x y z⟩

end TS

/-- Claim C1: the claim says isEmpty() is true on the canonical Empty list
and false on every Pair. The code disagrees on Empty: as written in
src/List.ts, BOTH `Pair.isEmpty` and `Empty.isEmpty` return false, so the
sanctioned emptiness predicate answers false on the empty list. This
theorem evaluates the embedded code, exhibiting the divergence. -/
theorem emptyList_isEmpty_returns_false :
    (∀ (T : Type), (TS.List.Empty : TS.List T).isEmpty = false) ∧
    (∀ (T : Type) (head : T) (tail : TS.List T),
      (TS.List.Pair head tail).isEmpty = false) :=
  ⟨fun _ => rfl, fun _ _ _ => rfl⟩

/-- Claim C5: List.bind maps its function over every element in original
order and concatenates the resulting lists in place: Empty.bind returns
Empty, bind equals the in-order flattening of the mapped list
(f(x1) ++ ... ++ f(xn)), and on [1,2,3] with f(x) = [x, x*10] it yields
[1,10,2,20,3,30]. -/
theorem list_bind_flattens_in_order :
    (∀ (T D : Type) (f : T → TS.List D),
      (TS.List.Empty : TS.List T).bind f = TS.List.Empty) ∧
    (∀ (T D : Type) (l : TS.List T) (f : T → TS.List D),
      l.bind f = (l.map f).flatten) ∧
    TS.exampleList123.bind TS.expandTimes10 =
      .Pair 1 (.Pair 10 (.Pair 2 (.Pair 20 (.Pair 3 (.Pair 30 .Empty))))) :=
  ⟨fun _ _ _ => rfl,
   fun _ _ l f => TS.List.bind_eq_flatten_map l f,
   rfl⟩

/-- Claim C6: List.foldRight uses the non-standard parameter order: on
Pair(head, tail) it computes func(tail.foldRight(seed)(func), head) — the
recursively folded tail is the first argument and the head the second —
and on Empty it returns the seed. -/
theorem foldRight_nonstandard_order :
    (∀ (T D : Type) (head : T) (tail : TS.List T) (seed : D)
        (func : D → T → D),
      (TS.List.Pair head tail).foldRight seed func =
        func (tail.foldRight seed func) head) ∧
    (∀ (T D : Type) (seed : D) (func : D → T → D),
      (TS.List.Empty : TS.List T).foldRight seed func = seed) :=
  ⟨fun _ _ _ _ _ _ => rfl, fun _ _ _ _ => rfl⟩

/-- Claim C7: Writer accumulates logs in temporal append order, old log
first: bind's log is monoid.combine(w.log, (func w.value).log), tell's log
is monoid.combine(w.log, l) with the value unchanged, and the factorial
chained through successive binds with the string monoid yields value 120
and the log entries concatenated left-to-right in call order. -/
theorem writer_log_append_order :
    (∀ (W A B : Type) (w : TS.Writer W A) (func : A → TS.Writer W B),
      (w.bind func).log = w.monoid.combine w.log (func w.value).log) ∧
    (∀ (W A : Type) (w : TS.Writer W A) (l : W),
      (w.tell l).log = w.monoid.combine w.log l ∧ (w.tell l).value = w.value) ∧
    (TS.factorialW 5).value = 120 ∧
    (TS.factorialW 5).log = "Fac(1)=1Fac(2)=2Fac(3)=6Fac(4)=24Fac(5)=120" :=
  ⟨fun _ _ _ _ _ => rfl,
   fun _ _ _ _ => ⟨rfl, rfl⟩,
   by decide,
   by decide⟩

/-- Claim C9: IO composition is deferred and never memoized: of wraps a
value leaving the world untouched when run, from runs exactly its thunk,
bind's run re-runs the receiver, then the continuation, then the returned
IO, and the counter program (of(43) bound to an incrementing continuation)
run twice from any world increments the counter exactly twice. -/
theorem io_deferred_not_memoized :
    (∀ (S A : Type) (a : A) (s : S), (TS.IOM.of a).runUnsafe s = (a, s)) ∧
    (∀ (S A : Type) (thunk : S → A × S) (s : S),
      (TS.IOM.fromThunk thunk).runUnsafe s = thunk s) ∧
    (∀ (S A B : Type) (m : TS.IOM S A) (func : A → S → TS.IOM S B × S)
        (s : S),
      (m.bind func).runUnsafe s =
        (func (m.runUnsafe s).1 (m.runUnsafe s).2).1.runUnsafe
          (func (m.runUnsafe s).1 (m.runUnsafe s).2).2) ∧
    (∀ (S A B : Type) (m : TS.IOM S A) (func : A → S → B × S) (s : S),
      (m.map func).runUnsafe s =
        func (m.runUnsafe s).1 (m.runUnsafe s).2) ∧
    (∀ (s : Nat),
      (TS.counterProgram.runUnsafe s).1 = 43 ∧
      (TS.counterProgram.runUnsafe s).2 = s + 1 ∧
      (TS.counterProgram.runUnsafe
        ((TS.counterProgram.runUnsafe s).2)).2 = s + 2) :=
  ⟨fun _ _ _ _ => rfl,
   fun _ _ _ _ => rfl,
   fun _ _ _ _ _ _ => rfl,
   fun _ _ _ _ _ _ => rfl,
   fun _ => ⟨rfl, rfl, rfl⟩⟩

/-- Claim C2: bind satisfies left identity, right identity and
associativity for Option, Either, Try (pure functions, so the Success
branch never catches), IO (pure continuations, lifted to the effectful
continuation shape), List, and Writer with a fixed lawful monoid (every
writer involved carrying that monoid). -/
theorem monad_laws_all_containers :
    (∀ (A B : Type) (a : A) (f : A → TS.Option B),
      (TS.Option.pure a).bind f = f a) ∧
    (∀ (A : Type) (m : TS.Option A), m.bind TS.Option.pure = m) ∧
    (∀ (A B C : Type) (m : TS.Option A) (f : A → TS.Option B)
        (g : B → TS.Option C),
      (m.bind f).bind g = m.bind fun x => (f x).bind g) ∧
    (∀ (L A B : Type) (a : A) (f : A → TS.Either L B),
      (TS.Either.asRight a).bind f = f a) ∧
    (∀ (L A : Type) (m : TS.Either L A), m.bind TS.Either.asRight = m) ∧
    (∀ (L A B C : Type) (m : TS.Either L A) (f : A → TS.Either L B)
        (g : B → TS.Either L C),
      (m.bind f).bind g = m.bind fun x => (f x).bind g) ∧
    (∀ (A B E : Type) (a : A) (f : A → TS.Try B E),
      (TS.Try.Success a).bind (fun x => Except.ok (f x)) = f a) ∧
    (∀ (A E : Type) (m : TS.Try A E),
      m.bind (fun x => Except.ok (TS.Try.Success x)) = m) ∧
    (∀ (A B C E : Type) (m : TS.Try A E) (f : A → TS.Try B E)
        (g : B → TS.Try C E),
      ((m.bind fun x => Except.ok (f x)).bind fun y => Except.ok (g y)) =
        (m.bind fun x => Except.ok ((f x).bind fun y => Except.ok (g y)))) ∧
    (∀ (S A B : Type) (a : A) (f : A → TS.IOM S B),
      (TS.IOM.of a).bind (TS.IOM.liftPure f) = f a) ∧
    (∀ (S A : Type) (m : TS.IOM S A),
      m.bind (TS.IOM.liftPure TS.IOM.of) = m) ∧
    (∀ (S A B C : Type) (m : TS.IOM S A) (f : A → TS.IOM S B)
        (g : B → TS.IOM S C),
      ((m.bind (TS.IOM.liftPure f)).bind (TS.IOM.liftPure g)) =
        m.bind (TS.IOM.liftPure fun x => (f x).bind (TS.IOM.liftPure g))) ∧
    (∀ (A B : Type) (a : A) (f : A → TS.List B),
      (TS.List.pure a).bind f = f a) ∧
    (∀ (A : Type) (m : TS.List A), m.bind TS.List.pure = m) ∧
    (∀ (A B C : Type) (m : TS.List A) (f : A → TS.List B)
        (g : B → TS.List C),
      (m.bind f).bind g = m.bind fun x => (f x).bind g) ∧
    (∀ (W A B : Type) (M : TS.Monoid W), M.Lawful →
      ∀ (a : A) (f : A → TS.Writer W B), (∀ x, (f x).monoid = M) →
        (TS.Writer.of a M).bind f = f a) ∧
    (∀ (W A : Type) (M : TS.Monoid W), M.Lawful →
      ∀ (m : TS.Writer W A), m.monoid = M →
        m.bind (fun x => TS.Writer.of x M) = m) ∧
    (∀ (W A B C : Type) (M : TS.Monoid W), M.Lawful →
      ∀ (m : TS.Writer W A) (f : A → TS.Writer W B) (g : B → TS.Writer W C),
        m.monoid = M → (∀ x, (f x).monoid = M) →
        (m.bind f).bind g = m.bind fun x => (f x).bind g) := by
  refine ⟨?_, ?_, ?_, ?_, ?_, ?_, ?_, ?_, ?_, ?_, ?_, ?_, ?_, ?_, ?_,
    ?_, ?_, ?_⟩
  · intro A B a f
    rfl
  · intro A m
    cases m <;> rfl
  · intro A B C m f g
    cases m <;> rfl
  · intro L A B a f
    rfl
  · intro L A m
    cases m <;> rfl
  · intro L A B C m f g
    cases m <;> rfl
  · intro A B E a f
    rfl
  · intro A E m
    cases m <;> rfl
  · intro A B C E m f g
    cases m <;> rfl
  · intro S A B a f
    rfl
  · intro S A m
    rfl
  · intro S A B C m f g
    rfl
  · intro A B a f
    simp [TS.List.pure, TS.List.bind, TS.List.concat_empty]
  · intro A m
    exact TS.List.bind_pure_right m
  · intro A B C m f g
    exact TS.List.bind_assoc m f g
  · intro W A B M hM a f hf
    exact TS.Writer.eq_of_parts rfl (hM.1 _) (hf a).symm
  · intro W A M hM m hm
    subst hm
    exact TS.Writer.eq_of_parts rfl (hM.2.1 _) rfl
  · intro W A B C M hM m f g hm hf
    subst hm
    refine TS.Writer.eq_of_parts rfl ?_ rfl
    show m.monoid.combine (m.monoid.combine m.log (f m.value).log)
        ((g (f m.value).value).log) =
      m.monoid.combine m.log
        ((f m.value).monoid.combine (f m.value).log
          ((g (f m.value).value).log))
    rw [hf m.value, hM.2.2]

/-- Witness for claim C2: the Writer laws applied at the concrete lawful
monoid NatAddMonoid with concrete writers and continuations. -/
theorem monad_laws_witness :
    TS.NatAddMonoid.Lawful ∧
    ((TS.Writer.of 3 TS.NatAddMonoid).bind TS.wStep = TS.wStep 3) ∧
    (TS.wSample.bind (fun x => TS.Writer.of x TS.NatAddMonoid) =
      TS.wSample) ∧
    ((TS.wSample.bind TS.wStep).bind TS.wStep2 =
      TS.wSample.bind fun x => (TS.wStep x).bind TS.wStep2) :=
  ⟨TS.NatAddMonoid.lawful,
   monad_laws_all_containers.2.2.2.2.2.2.2.2.2.2.2.2.2.2.2.1
     Nat Nat Nat TS.NatAddMonoid TS.NatAddMonoid.lawful 3 TS.wStep
     (fun _ => rfl),
   monad_laws_all_containers.2.2.2.2.2.2.2.2.2.2.2.2.2.2.2.2.1
     Nat Nat TS.NatAddMonoid TS.NatAddMonoid.lawful TS.wSample rfl,
   monad_laws_all_containers.2.2.2.2.2.2.2.2.2.2.2.2.2.2.2.2.2
     Nat Nat Nat Nat TS.NatAddMonoid TS.NatAddMonoid.lawful TS.wSample
     TS.wStep TS.wStep2 rfl (fun _ => rfl)⟩

/-- Claim C3: Try intercepts errors at every combinator boundary: on
Success, a raising bind/map argument yields Failure of the raised error,
and a returning one yields its result (wrapped in Success for map); on
Failure, bind and map return a Failure with the same error for every
function; recover/recoverWith on Failure apply their function to the
error, converting a raise into a new Failure, and on Success are no-ops. -/
theorem try_intercepts_errors :
    (∀ (A B E : Type) (x : A) (f : A → Except E (TS.Try B E)) (e : E),
      f x = .error e → (TS.Try.Success x).bind f = .Failure e) ∧
    (∀ (A B E : Type) (x : A) (f : A → Except E (TS.Try B E))
        (t : TS.Try B E),
      f x = .ok t → (TS.Try.Success x).bind f = t) ∧
    (∀ (A B E : Type) (x : A) (f : A → Except E B) (e : E),
      f x = .error e → (TS.Try.Success x).map f = .Failure e) ∧
    (∀ (A B E : Type) (x : A) (f : A → Except E B) (b : B),
      f x = .ok b → (TS.Try.Success x).map f = .Success b) ∧
    (∀ (A B E : Type) (e : E) (f : A → Except E (TS.Try B E)),
      (TS.Try.Failure e : TS.Try A E).bind f = .Failure e) ∧
    (∀ (A B E : Type) (e : E) (f : A → Except E B),
      (TS.Try.Failure e : TS.Try A E).map f = (.Failure e : TS.Try B E)) ∧
    (∀ (A E : Type) (e : E) (f : E → Except E A) (a : A),
      f e = .ok a → (TS.Try.Failure e : TS.Try A E).recover f = .Success a) ∧
    (∀ (A E : Type) (e : E) (f : E → Except E A) (e' : E),
      f e = .error e' →
        (TS.Try.Failure e : TS.Try A E).recover f = .Failure e') ∧
    (∀ (A E : Type) (e : E) (f : E → Except E (TS.Try A E))
        (t : TS.Try A E),
      f e = .ok t → (TS.Try.Failure e : TS.Try A E).recoverWith f = t) ∧
    (∀ (A E : Type) (e : E) (f : E → Except E (TS.Try A E)) (e' : E),
      f e = .error e' →
        (TS.Try.Failure e : TS.Try A E).recoverWith f = .Failure e') ∧
    (∀ (A E : Type) (x : A) (f : E → Except E A),
      (TS.Try.Success x : TS.Try A E).recover f = .Success x) ∧
    (∀ (A E : Type) (x : A) (f : E → Except E (TS.Try A E)),
      (TS.Try.Success x : TS.Try A E).recoverWith f = .Success x) := by
  refine ⟨?_, ?_, ?_, ?_, ?_, ?_, ?_, ?_, ?_, ?_, ?_, ?_⟩
  · intro A B E x f e h
    simp [TS.Try.bind, h]
  · intro A B E x f t h
    simp [TS.Try.bind, h]
  · intro A B E x f e h
    simp [TS.Try.map, h]
  · intro A B E x f b h
    simp [TS.Try.map, h]
  · intro A B E e f
    rfl
  · intro A B E e f
    rfl
  · intro A E e f a h
    simp [TS.Try.recover, h]
  · intro A E e f e' h
    simp [TS.Try.recover, h]
  · intro A E e f t h
    simp [TS.Try.recoverWith, h]
  · intro A E e f e' h
    simp [TS.Try.recoverWith, h]
  · intro A E x f
    rfl
  · intro A E x f
    rfl

/-- Witness for claim C3: a continuation raising "boom" turns
Success(1).bind into Failure("boom"), and recovering Failure("boom") with
the error's length yields Success(4). -/
theorem try_intercepts_errors_witness :
    ((fun _ : Nat => (Except.error "boom" : Except String (TS.Try Nat String)))
        1 = Except.error "boom" ∧
      (TS.Try.Success 1).bind
        (fun _ : Nat =>
          (Except.error "boom" : Except String (TS.Try Nat String))) =
        TS.Try.Failure "boom") ∧
    ((fun err : String => (Except.ok err.length : Except String Nat))
        "boom" = Except.ok 4 ∧
      (TS.Try.Failure "boom" : TS.Try Nat String).recover
        (fun err => Except.ok err.length) = TS.Try.Success 4) :=
  ⟨⟨rfl,
    try_intercepts_errors.1 Nat Nat String 1
      (fun _ => Except.error "boom") "boom" rfl⟩,
   ⟨rfl,
    try_intercepts_errors.2.2.2.2.2.2.1 Nat String "boom"
      (fun err => Except.ok err.length) 4 rfl⟩⟩

/-- Claim C4: Option and Either propagate failure by short-circuit only and
never catch: None.bind returns None and Left(l).bind returns a Left with
the same value, independently of the function; and when the function
argument of bind or map on Some(x)/Right(x) raises, the raise escapes
uncaught instead of becoming any container value. -/
theorem option_either_never_catch :
    (∀ (A B E : Type) (f : A → Except E (TS.Option B)),
      (TS.Option.None : TS.Option A).bindThrows f = .ok TS.Option.None) ∧
    (∀ (L R T E : Type) (l : L) (f : R → Except E (TS.Either L T)),
      (TS.Either.Left l : TS.Either L R).bindThrows f =
        .ok (TS.Either.Left l)) ∧
    (∀ (A B E : Type) (x : A) (f : A → Except E (TS.Option B)) (e : E),
      f x = .error e → (TS.Option.Some x).bindThrows f = .error e) ∧
    (∀ (L R T E : Type) (x : R) (f : R → Except E (TS.Either L T)) (e : E),
      f x = .error e → (TS.Either.Right x : TS.Either L R).bindThrows f =
        .error e) ∧
    (∀ (A B E : Type) (x : A) (f : A → Except E B) (e : E),
      f x = .error e →
        (TS.Option.Some x).mapThrows f = (.error e : Except E (TS.Option B))) ∧
    (∀ (L R T E : Type) (x : R) (f : R → Except E T) (e : E),
      f x = .error e →
        (TS.Either.Right x : TS.Either L R).mapThrows f =
          (.error e : Except E (TS.Either L T))) := by
  refine ⟨?_, ?_, ?_, ?_, ?_, ?_⟩
  · intro A B E f
    rfl
  · intro L R T E l f
    rfl
  · intro A B E x f e h
    simp [TS.Option.bindThrows, h]
  · intro L R T E x f e h
    simp [TS.Either.bindThrows, h]
  · intro A B E x f e h
    simp [TS.Option.mapThrows, TS.Option.bindThrows, h]
  · intro L R T E x f e h
    simp [TS.Either.mapThrows, TS.Either.bindThrows, h]

/-- Witness for claim C4: a function raising "boom" applied under
Some(5).bind and Right(5).bind lets the raise escape as is. -/
theorem option_either_never_catch_witness :
    ((fun _ : Nat =>
        (Except.error "boom" : Except String (TS.Option Nat))) 5 =
      Except.error "boom" ∧
      (TS.Option.Some 5).bindThrows
        (fun _ : Nat =>
          (Except.error "boom" : Except String (TS.Option Nat))) =
        Except.error "boom") ∧
    ((fun _ : Nat =>
        (Except.error "boom" : Except String (TS.Either String Nat))) 5 =
      Except.error "boom" ∧
      (TS.Either.Right 5 : TS.Either String Nat).bindThrows
        (fun _ : Nat =>
          (Except.error "boom" : Except String (TS.Either String Nat))) =
        Except.error "boom") :=
  ⟨⟨rfl,
    option_either_never_catch.2.2.1 Nat Nat String 5
      (fun _ => Except.error "boom") "boom" rfl⟩,
   ⟨rfl,
    option_either_never_catch.2.2.2.1 String Nat Nat String 5
      (fun _ => Except.error "boom") "boom" rfl⟩⟩

/-- Claim C8: the documented Writer.bind enforces monoid identity at bind
time: when the Writer returned by the continuation carries a monoid
reference not identical to the receiver's, bind fails with the assertion
error instead of returning a Writer; when the references are identical it
returns the combined Writer (old log first, receiver's monoid). -/
theorem writerA_bind_monoid_identity_check :
    (∀ (W A B : Type) (w : TS.WriterA W A)
        (func : A → (B → W → TS.WriterA W B) → TS.WriterA W B),
      (TS.WriterA.bindResult w func).monoid.id ≠ w.monoid.id →
        TS.WriterA.bind w func = .error .monoidMismatch) ∧
    (∀ (W A B : Type) (w : TS.WriterA W A)
        (func : A → (B → W → TS.WriterA W B) → TS.WriterA W B),
      (TS.WriterA.bindResult w func).monoid.id = w.monoid.id →
        TS.WriterA.bind w func =
          .ok ⟨(TS.WriterA.bindResult w func).value,
            w.monoid.ops.combine w.log (TS.WriterA.bindResult w func).log,
            w.monoid⟩) := by
  constructor
  · intro W A B w func h
    simp [TS.WriterA.bind, h]
  · intro W A B w func h
    simp [TS.WriterA.bind, h]

/-- Witness for claim C8: binding a writer over the monoid reference with
identity 0 against a continuation returning a writer tagged with the
distinct reference of identity 1 yields the assertion error; the
make-built continuation, carrying the receiver's reference, succeeds. -/
theorem writerA_bind_monoid_identity_check_witness :
    ((TS.WriterA.bindResult TS.waSample TS.mismatchCont).monoid.id ≠
        TS.waSample.monoid.id ∧
      TS.WriterA.bind TS.waSample TS.mismatchCont =
        .error .monoidMismatch) ∧
    ((TS.WriterA.bindResult TS.waSample TS.makeCont).monoid.id =
        TS.waSample.monoid.id ∧
      TS.WriterA.bind TS.waSample TS.makeCont =
        .ok ⟨(TS.WriterA.bindResult TS.waSample TS.makeCont).value,
          TS.waSample.monoid.ops.combine TS.waSample.log
            (TS.WriterA.bindResult TS.waSample TS.makeCont).log,
          TS.waSample.monoid⟩) :=
  ⟨⟨by decide,
    writerA_bind_monoid_identity_check.1 String Nat Nat TS.waSample
      TS.mismatchCont (by decide)⟩,
   ⟨rfl,
    writerA_bind_monoid_identity_check.2 String Nat Nat TS.waSample
      TS.makeCont rfl⟩⟩

/-- Claim C10: the ADT matcher dispatches to the handler whose key equals
the value's discriminant and returns its result; with a handler map
covering every declared discriminant and a value of a declared variant,
match returns that handler's result; when the value's discriminant has no
handler, dispatch raises (a TypeError from calling undefined) and never
silently produces a value. -/
theorem adt_match_exhaustive_dispatch :
    (∀ (P D : Type) (v : ADTs.Tagged P)
        (handlers : String → ADTs.JSProp (ADTs.Tagged P → D))
        (h : ADTs.Tagged P → D),
      handlers v.tag = .defined h →
        ADTs.adtMatch v handlers = .value (h v)) ∧
    (∀ (P D : Type) (declared : List String) (v : ADTs.Tagged P)
        (handlers : String → ADTs.JSProp (ADTs.Tagged P → D)),
      v.tag ∈ declared →
      (∀ t ∈ declared, ∃ h, handlers t = .defined h) →
        ∃ h, handlers v.tag = .defined h ∧
          ADTs.adtMatch v handlers = .value (h v)) ∧
    (∀ (P D : Type) (v : ADTs.Tagged P)
        (handlers : String → ADTs.JSProp (ADTs.Tagged P → D)),
      handlers v.tag = .undefinedProp →
        ADTs.adtMatch v handlers = .thrown ∧
          ∀ d : D, ADTs.adtMatch v handlers ≠ .value d) := by
  refine ⟨?_, ?_, ?_⟩
  · intro P D v handlers h hh
    simp [ADTs.adtMatch, hh]
  · intro P D declared v handlers hmem hcov
    obtain ⟨h, hh⟩ := hcov v.tag hmem
    exact ⟨h, hh, by simp [ADTs.adtMatch, hh]⟩
  · intro P D v handlers hh
    refine ⟨by simp [ADTs.adtMatch, hh], ?_⟩
    intro d
    simp [ADTs.adtMatch, hh]

/-- Witness for claim C10: for the square value, the full handler map
dispatches to the square handler returning 8, and the handler map missing
the square variant raises at dispatch. -/
theorem adt_match_exhaustive_dispatch_witness :
    (ADTs.fullHandlers ADTs.squareValue.tag =
        .defined ADTs.squareHandler ∧
      ADTs.adtMatch ADTs.squareValue ADTs.fullHandlers =
        .value (ADTs.squareHandler ADTs.squareValue)) ∧
    (ADTs.partialHandlers ADTs.squareValue.tag = .undefinedProp ∧
      ADTs.adtMatch ADTs.squareValue ADTs.partialHandlers = .thrown) :=
  ⟨⟨rfl,
    adt_match_exhaustive_dispatch.1 Nat Nat ADTs.squareValue
      ADTs.fullHandlers ADTs.squareHandler rfl⟩,
   ⟨rfl,
    (adt_match_exhaustive_dispatch.2.2 Nat Nat ADTs.squareValue
      ADTs.partialHandlers rfl).1⟩⟩
